import Mathlib

/-!
Shallow embedding of the EcoImmo France core services:
  - apps/api/app/services/dpe_2026_calculator.py
  - apps/api/app/services/french_gov_data_fetcher.py

Python floats are modelled as exact rationals, Python dicts over string keys
as functions from String to Option values, and datetimes as their ISO-8601
strings (for same-format ISO strings, lexicographic string order coincides
with chronological order, which is all the code uses).
-/

namespace EcoImmo

/-! DPE Energy Performance Classifications (A-G scale), from the
DPEClassification enum of dpe_2026_calculator.py. -/

inductive DPEClassification where
  | A | B | C | D | E | F | G
deriving DecidableEq, Repr, Fintype

open DPEClassification

/-- Position of a class on the ordered A-G scale (A best, G worst); used to
state monotonicity of the classification. -/
def rank : DPEClassification → ℕ
  | A => 0 | B => 1 | C => 2 | D => 3 | E => 4 | F => 5 | G => 6

/-! RenovationUrgency enum of dpe_2026_calculator.py. -/

inductive RenovationUrgency where
  | compliant | warning | urgent | critical
deriving DecidableEq, Repr

/-- EnergyConsumption dataclass: energy consumption breakdown by source. -/
structure EnergyConsumption where
  heating_kwh : ℚ
  hot_water_kwh : ℚ
  cooling_kwh : ℚ
  lighting_kwh : ℚ
  auxiliary_kwh : ℚ
deriving DecidableEq, Repr

/-- Property total_final_energy of EnergyConsumption. -/
def EnergyConsumption.total_final_energy (c : EnergyConsumption) : ℚ :=
  c.heating_kwh + c.hot_water_kwh + c.cooling_kwh + c.lighting_kwh + c.auxiliary_kwh

/-! Regulatory constants of DPE2026Calculator. -/

def ELECTRICITY_FACTOR_2026 : ℚ := 1.9
def ELECTRICITY_FACTOR_PRE_2026 : ℚ := 2.3
def GAS_FACTOR : ℚ := 1.0
def FUEL_OIL_FACTOR : ℚ := 1.0
def WOOD_FACTOR : ℚ := 0.6

/-- DPE_THRESHOLDS dict of DPE2026Calculator, as the mapping from class to
the (min, max) bounds; the G entry has max = float inf, modelled as none. -/
def DPE_THRESHOLDS : DPEClassification → ℚ × Option ℚ
  | A => (0, some 70)
  | B => (71, some 110)
  | C => (111, some 180)
  | D => (181, some 250)
  | E => (251, some 330)
  | F => (331, some 420)
  | G => (421, none)

/-- Iteration (insertion) order of the DPE_THRESHOLDS dict. -/
def DPE_CLASS_ORDER : List DPEClassification := [A, B, C, D, E, F, G]

/-- Test min_val <= v <= max_val of classify_energy_performance; a none upper
bound is float inf, for which the comparison always holds. -/
def inRange (v : ℚ) (lo : ℚ) (hi : Option ℚ) : Bool :=
  decide (lo ≤ v) && (match hi with | none => true | some h => decide (v ≤ h))

/-- DPE2026Calculator.classify_energy_performance: first class of the
threshold dict whose interval contains the value, with fallback G. -/
def classify_energy_performance (v : ℚ) : DPEClassification :=
  match DPE_CLASS_ORDER.find?
      (fun c => inRange v (DPE_THRESHOLDS c).1 (DPE_THRESHOLDS c).2) with
  | some c => c
  | none => G

/-- Calendar date, modelling the datetime constants of RENTAL_BAN_DATES
(all at midnight, so only year, month, day matter). -/
structure PyDate where
  year : ℕ
  month : ℕ
  day : ℕ
deriving DecidableEq, Repr

/-- Chronological strict order on dates (lexicographic on year, month, day). -/
def PyDate.lt (d1 d2 : PyDate) : Prop :=
  d1.year < d2.year ∨ (d1.year = d2.year ∧
    (d1.month < d2.month ∨ (d1.month = d2.month ∧ d1.day < d2.day)))

instance : DecidablePred (fun p : PyDate × PyDate => PyDate.lt p.1 p.2) := by
  unfold PyDate.lt; infer_instance

instance (d1 d2 : PyDate) : Decidable (PyDate.lt d1 d2) := by
  unfold PyDate.lt; infer_instance

/-- RENTAL_BAN_DATES dict of DPE2026Calculator (Loi Climat rental ban dates),
in insertion order G, F, E. -/
def RENTAL_BAN_DATES : List (DPEClassification × PyDate) :=
  [(G, ⟨2025, 1, 1⟩), (F, ⟨2028, 1, 1⟩), (E, ⟨2034, 1, 1⟩)]

/-- ENERGY_COSTS dict of DPE2026Calculator (EUR per kWh, 2026 rates). -/
def ENERGY_COSTS : List (String × ℚ) :=
  [("electricity", 0.2516), ("gas", 0.1121), ("fuel_oil", 0.1450), ("wood", 0.0650)]

/-- Python round-half-to-even of a rational to an integer. -/
def pyRoundHalfEven (q : ℚ) : ℤ :=
  let f := ⌊q⌋
  let r := q - (f : ℚ)
  if r < 1/2 then f
  else if (1:ℚ)/2 < r then f + 1
  else if f % 2 = 0 then f else f + 1

/-- Python round(x, 2), on exact rationals. -/
def pyRound2 (q : ℚ) : ℚ := (pyRoundHalfEven (q * 100) : ℚ) / 100

/-- Python round(x, 1), on exact rationals. -/
def pyRound1 (q : ℚ) : ℚ := (pyRoundHalfEven (q * 10) : ℚ) / 10

/-- Python int() truncation of a rational toward zero. -/
def pyInt (q : ℚ) : ℤ := if 0 ≤ q then ⌊q⌋ else -⌊-q⌋

/-- Weighted conversion factor of recalculate_with_2026_factor: starts at 0,
adds the electricity component, then folds over the other_energy_sources dict
in insertion order, recognizing only gas, fuel_oil and wood. -/
def weightedFactor (electricity_percentage : ℚ)
    (other_energy_sources : List (String × ℚ)) : ℚ :=
  other_energy_sources.foldl
    (fun acc p =>
      if p.1 = "gas" then acc + p.2 * GAS_FACTOR
      else if p.1 = "fuel_oil" then acc + p.2 * FUEL_OIL_FACTOR
      else if p.1 = "wood" then acc + p.2 * WOOD_FACTOR
      else acc)
    (0 + electricity_percentage * ELECTRICITY_FACTOR_2026)

/-- DPE2026Calculator.recalculate_with_2026_factor: recalculated primary
energy is the total final energy times the weighted conversion factor. -/
def recalculate_with_2026_factor (final_energy_consumption : EnergyConsumption)
    (electricity_percentage : ℚ)
    (other_energy_sources : List (String × ℚ)) : ℚ :=
  final_energy_consumption.total_final_energy *
    weightedFactor electricity_percentage other_energy_sources

/-- DPE2026Calculator.calculate_renovation_urgency. -/
def calculate_renovation_urgency (classification : DPEClassification)
    (is_rental_property : Bool) : RenovationUrgency :=
  if !is_rental_property then RenovationUrgency.compliant
  else if classification = G then RenovationUrgency.critical
  else if classification = F then RenovationUrgency.urgent
  else if classification = E then RenovationUrgency.warning
  else RenovationUrgency.compliant

/-- DPE2026Calculator.estimate_energy_costs: sums per-source cost over the
energy mix (unknown sources fall back to 0.15 EUR per kWh), rounded to two
decimals. -/
def estimate_energy_costs (final_energy_kwh : ℚ) (surface_m2 : ℚ)
    (energy_mix : List (String × ℚ)) : ℚ :=
  let total_consumption := final_energy_kwh * surface_m2
  pyRound2 (energy_mix.foldl
    (fun total_cost p =>
      let cost_per_kwh := match ENERGY_COSTS.find? (fun e => e.1 = p.1) with
        | some e => e.2
        | none => 0.15
      total_cost + total_consumption * p.2 * cost_per_kwh)
    0)

/-- Base depreciation dict of calculate_value_depreciation. -/
def baseDepreciation : DPEClassification → ℚ
  | A => 0 | B => 0 | C => 0 | D => 0
  | E => 6.5 | F => 12.0 | G => 16.0

/-- DPE2026Calculator.calculate_value_depreciation: base percentage by class,
amplified by 1.25 for rentals in F or G, rounded to one decimal. -/
def calculate_value_depreciation (classification : DPEClassification)
    (is_rental_property : Bool) : ℚ :=
  let d := baseDepreciation classification
  let d := if is_rental_property && (classification = F ∨ classification = G : Bool)
    then d * 1.25 else d
  pyRound1 d

/-- DPE2026Calculator.generate_renovation_priorities: ordered recommendation
list built from threshold rules, truncated to the first five. -/
def generate_renovation_priorities (classification : DPEClassification)
    (consumption : EnergyConsumption) : List String :=
  let priorities : List String := []
  let priorities := priorities ++
    (if 150 < consumption.heating_kwh then
      ["Isolation thermique (combles, murs, planchers)",
       "Remplacement du systeme de chauffage (pompe a chaleur)"] else [])
  let priorities := priorities ++
    (if 50 < consumption.hot_water_kwh then
      ["Chauffe-eau thermodynamique ou solaire"] else [])
  let priorities := priorities ++
    (if classification = F ∨ classification = G then
      ["Remplacement des fenetres (double/triple vitrage)",
       "Installation de VMC double flux"] else [])
  let priorities := priorities ++
    ["Panneaux solaires photovoltaiques (autoconsommation)"]
  priorities.take 5

/-- Renovation cost-per-square-meter dict of estimate_renovation_costs. -/
def renovationRates : DPEClassification → Option (ℚ × ℚ)
  | E => some (150, 250)
  | F => some (300, 500)
  | G => some (500, 800)
  | _ => none

/-- DPE2026Calculator.estimate_renovation_costs: (min, max) cost in whole
euros (Python int() truncation), (0, 0) for classes without an entry. -/
def estimate_renovation_costs (classification : DPEClassification)
    (surface_m2 : ℚ) : ℤ × ℤ :=
  match renovationRates classification with
  | none => (0, 0)
  | some (min_rate, max_rate) =>
    (pyInt (min_rate * surface_m2), pyInt (max_rate * surface_m2))

/-- DPE2026Result dataclass. The calculation_metadata dict is reduced to its
one computed entry (confidence_level); its other entries are constants or an
impure timestamp and are not modelled. -/
structure DPE2026Result where
  original_classification : DPEClassification
  original_primary_energy : ℚ
  recalculated_primary_energy : ℚ
  recalculated_classification : DPEClassification
  is_passoire_thermique : Bool
  renovation_urgency : RenovationUrgency
  rental_ban_date : Option PyDate
  estimated_energy_cost_annual : ℚ
  potential_value_loss_percent : ℚ
  metadata_confidence_level : String
  ai_transparency_badge : Bool
  human_verification_required : Bool
  priority_renovations : List String
  estimated_renovation_cost_range : ℤ × ℤ
deriving DecidableEq, Repr

/-- DPE2026Calculator.calculate_full_dpe_2026. The original class argument is
taken already converted to the enum (the source converts the string with
DPEClassification(original_dpe_class)). The energy mix passed to the cost
estimate prepends the electricity share to the other sources, as the dict
merge in the source does. The function validates nothing: every argument is
used as given. -/
def calculate_full_dpe_2026 (enable_ai_transparency : Bool)
    (original_dpe_class : DPEClassification)
    (original_primary_energy : ℚ)
    (final_energy_consumption : EnergyConsumption)
    (electricity_percentage : ℚ)
    (other_energy_sources : List (String × ℚ))
    (surface_m2 : ℚ)
    (is_rental_property : Bool) : DPE2026Result :=
  let recalculated_primary := recalculate_with_2026_factor
    final_energy_consumption electricity_percentage other_energy_sources
  let recalculated_class := classify_energy_performance recalculated_primary
  let is_passoire := recalculated_class = F ∨ recalculated_class = G
  let urgency := calculate_renovation_urgency recalculated_class is_rental_property
  let rental_ban : Option PyDate :=
    if is_rental_property then
      (RENTAL_BAN_DATES.find? (fun p => p.1 = recalculated_class)).map (fun p => p.2)
    else none
  let energy_mix := ("electricity", electricity_percentage) :: other_energy_sources
  let annual_cost := estimate_energy_costs
    final_energy_consumption.total_final_energy surface_m2 energy_mix
  let value_loss := calculate_value_depreciation recalculated_class is_rental_property
  let priorities := generate_renovation_priorities recalculated_class final_energy_consumption
  let cost_range := estimate_renovation_costs recalculated_class surface_m2
  let human_verification := is_passoire ∧ is_rental_property = true ∧
    (urgency = RenovationUrgency.urgent ∨ urgency = RenovationUrgency.critical)
  { original_classification := original_dpe_class
    original_primary_energy := original_primary_energy
    recalculated_primary_energy := recalculated_primary
    recalculated_classification := recalculated_class
    is_passoire_thermique := decide is_passoire
    renovation_urgency := urgency
    rental_ban_date := rental_ban
    estimated_energy_cost_annual := annual_cost
    potential_value_loss_percent := value_loss
    metadata_confidence_level :=
      if (0.8 : ℚ) < electricity_percentage then "high" else "medium"
    ai_transparency_badge := enable_ai_transparency
    human_verification_required := decide human_verification
    priority_renovations := priorities
    estimated_renovation_cost_range := cost_range }

/-!
Embedding of french_gov_data_fetcher.py. JSON scalars are modelled by PyVal
(strings, numbers, nested field maps); a Python dict over string keys is a
function from String to Option PyVal, absence of a key being none.
-/

inductive PyVal where
  | vStr : String → PyVal
  | vNum : ℚ → PyVal
  | vDict : (String → Option PyVal) → PyVal

/-- A raw JSON object: field name to value, none when the key is absent. -/
def Record : Type := String → Option PyVal

/-- GDPRConfig model of french_gov_data_fetcher.py (defaults: postal_code
level, exact addresses excluded, 90 days retention). -/
structure GDPRConfig where
  anonymization_level : String := "postal_code"
  include_exact_addresses : Bool := false
  data_retention_days : ℤ := 90

/-- Python dict.pop(k, None): the record with key k absent. -/
def popField (r : Record) (k : String) : Record :=
  fun k2 => if k2 = k then none else r k2

/-- FrenchGovDataFetcher._anonymize_address: when exact addresses are
excluded, drop adresse_numero and adresse_nom_voie, and additionally drop
longitude and latitude when the anonymization level is commune; otherwise
return the record unchanged. -/
def anonymize_address (cfg : GDPRConfig) (transaction : Record) : Record :=
  if cfg.include_exact_addresses then transaction
  else
    let r1 := popField (popField transaction "adresse_numero") "adresse_nom_voie"
    if cfg.anonymization_level = "commune" then
      popField (popField r1 "longitude") "latitude"
    else r1

/-- DVFTransaction pydantic model: a property transaction from DVF.
Datetimes are kept as their ISO strings. -/
structure DVFTransaction where
  id_mutation : String
  date_mutation : String
  nature_mutation : String
  valeur_fonciere : ℚ
  adresse_numero : Option String
  adresse_nom_voie : Option String
  code_postal : String
  code_commune : String
  nom_commune : String
  type_local : String
  surface_reelle_bati : Option ℚ
  nombre_pieces_principales : Option ℤ
  longitude : Option ℚ
  latitude : Option ℚ
deriving DecidableEq, Repr

/-- DPEDiagnostic pydantic model: an energy performance diagnostic from
ADEME. Datetimes are kept as their ISO strings. -/
structure DPEDiagnostic where
  n_dpe : String
  date_etablissement_dpe : String
  classe_consommation_energie : String
  classe_estimation_ges : String
  consommation_energie : ℚ
  estimation_ges : ℚ
  code_postal : String
  type_batiment : String
  annee_construction : Option String
  surface_habitable : ℚ
  type_energie_principale_chauffage : String
  type_installation_chauffage : Option String
  type_energie_n_1 : Option String
  conso_chauffage : Option ℚ
  conso_ecs : Option ℚ
  conso_refroidissement : Option ℚ
  conso_eclairage : Option ℚ
  conso_auxiliaires : Option ℚ
deriving DecidableEq, Repr

/-- Python fields.get(k, dflt) fed to a required str field. A numeric value
is modelled as a parse failure (the record is skipped). -/
def getStrD (r : Record) (k : String) (dflt : String) : Option String :=
  match r k with
  | none => some dflt
  | some (PyVal.vStr s) => some s
  | some _ => none

/-- Python str.replace applied to the single pattern the source uses:
every Z character is replaced by the text +00:00. -/
def pyReplaceZ (s : String) : String :=
  String.mk (s.data.flatMap (fun c => if c = 'Z' then "+00:00".data else [c]))

/-- datetime.fromisoformat on fields.get(k, '') with the Z suffix rewritten,
modelled as keeping the ISO string itself; the empty string (absent field)
raises, hence none; a non-string value raises on .replace, hence none. -/
def getDate (r : Record) (k : String) : Option String :=
  match r k with
  | none => none
  | some (PyVal.vStr s) => if s = "" then none else some (pyReplaceZ s)
  | some _ => none

/-- float(fields.get(k, 0)): absent means 0; a non-numeric value is modelled
as a conversion failure. -/
def getFloatD (r : Record) (k : String) : Option ℚ :=
  match r k with
  | none => some 0
  | some (PyVal.vNum q) => some q
  | some _ => none

/-- fields.get(k) fed to an optional float field: absent stays none; a
non-numeric value fails validation and the record is skipped. -/
def getOptFloat (r : Record) (k : String) : Option (Option ℚ) :=
  match r k with
  | none => some none
  | some (PyVal.vNum q) => some (some q)
  | some _ => none

/-- fields.get(k) fed to an optional str field. -/
def getOptStr (r : Record) (k : String) : Option (Option String) :=
  match r k with
  | none => some none
  | some (PyVal.vStr s) => some (some s)
  | some _ => none

/-- fields.get(k) fed to an optional int field: integral numbers are
accepted, anything else fails validation. -/
def getOptInt (r : Record) (k : String) : Option (Option ℤ) :=
  match r k with
  | none => some none
  | some (PyVal.vNum q) => if q.den = 1 then some (some q.num) else none
  | some _ => none

/-- Construction of a DVFTransaction from an (already anonymized) fields
dict inside the try block of fetch_dvf_transactions; any field failure makes
the record be skipped. -/
def parse_dvf_record (fields : Record) : Option DVFTransaction :=
  Option.bind (getStrD fields "id_mutation" "") (fun idm =>
  Option.bind (getDate fields "date_mutation") (fun dm =>
  Option.bind (getStrD fields "nature_mutation" "") (fun nm =>
  Option.bind (getFloatD fields "valeur_fonciere") (fun vf =>
  Option.bind (getOptStr fields "adresse_numero") (fun an =>
  Option.bind (getOptStr fields "adresse_nom_voie") (fun av =>
  Option.bind (getStrD fields "code_postal" "") (fun cp =>
  Option.bind (getStrD fields "code_commune" "") (fun cc =>
  Option.bind (getStrD fields "nom_commune" "") (fun nc =>
  Option.bind (getStrD fields "type_local" "") (fun tl =>
  Option.bind (getOptFloat fields "surface_reelle_bati") (fun srb =>
  Option.bind (getOptInt fields "nombre_pieces_principales") (fun npp =>
  Option.bind (getOptFloat fields "longitude") (fun lon =>
  Option.bind (getOptFloat fields "latitude") (fun lat =>
  some ⟨idm, dm, nm, vf, an, av, cp, cc, nc, tl, srb, npp, lon, lat⟩))))))))))))))

/-- record.get('fields', \x7b\x7d) in the DVF parse loop: absent key gives
the empty dict; a non-dict value is modelled as a skipped record. -/
def getFields (record : Record) : Option Record :=
  match record "fields" with
  | none => some (fun _ => none)
  | some (PyVal.vDict d) => some d
  | some _ => none

/-- DVF parse-and-anonymize loop body over the first limit raw records. -/
def parseDvfRecords (cfg : GDPRConfig) (records : List Record) (limit : ℕ) :
    List DVFTransaction :=
  (records.take limit).filterMap (fun record =>
    (getFields record).bind (fun fields =>
      parse_dvf_record (anonymize_address cfg fields)))

/-- Outcome of the network layer seen by a fetcher on a cache miss:
none when _fetch_with_retry exhausted its attempts (returned None), some
none when the parsed envelope lacks the expected field (records or results),
some (some rs) when the envelope carried the record list rs. -/
def FetchOutcome : Type := Option (Option (List Record))

/-- FrenchGovDataFetcher.fetch_dvf_transactions, with the cache lookup and
network outcome passed explicitly. Returns the serialized record set written
to the cache (none when nothing is written) together with the transaction
list returned to the caller. On a cache hit the cached records are parsed;
on a miss a failed or malformed upstream response yields the empty list and
no cache write; otherwise the raw records are cached verbatim, then parsed
and anonymized. -/
def fetch_dvf_transactions (cfg : GDPRConfig) (cached : Option (List Record))
    (outcome : FetchOutcome) (limit : ℕ) :
    Option (List Record) × List DVFTransaction :=
  match cached with
  | some records => (none, parseDvfRecords cfg records limit)
  | none =>
    match outcome with
    | none => (none, [])
    | some none => (none, [])
    | some (some records) => (some records, parseDvfRecords cfg records limit)

/-- Construction of a DPEDiagnostic from a raw result dict inside the try
block of fetch_dpe_diagnostics. -/
def parse_dpe_record (result : Record) : Option DPEDiagnostic :=
  Option.bind (getStrD result "N°DPE" "") (fun nd =>
  Option.bind (getDate result "Date_établissement_DPE") (fun de =>
  Option.bind (getStrD result "Classe_consommation_énergie" "") (fun cce =>
  Option.bind (getStrD result "Classe_estimation_GES" "") (fun cge =>
  Option.bind (getFloatD result "Consommation_énergie") (fun ce =>
  Option.bind (getFloatD result "Estimation_GES") (fun eg =>
  Option.bind (getStrD result "Code_postal_(BAN)" "") (fun cp =>
  Option.bind (getStrD result "Type_bâtiment" "") (fun tb =>
  Option.bind (getOptStr result "Année_construction") (fun ac =>
  Option.bind (getFloatD result "Surface_habitable_logement") (fun sh =>
  Option.bind (getStrD result "Type_énergie_principale_chauffage" "") (fun tep =>
  Option.bind (getOptStr result "Type_installation_chauffage") (fun tic =>
  Option.bind (getOptStr result "Type_énergie_n°1") (fun ten =>
  Option.bind (getOptFloat result "Conso_chauffage_é_finale") (fun cch =>
  Option.bind (getOptFloat result "Conso_ECS_é_finale") (fun cecs =>
  Option.bind (getOptFloat result "Conso_refroidissement_é_finale") (fun cref =>
  Option.bind (getOptFloat result "Conso_éclairage_é_finale") (fun cecl =>
  Option.bind (getOptFloat result "Conso_auxiliaires_é_finale") (fun caux =>
  some ⟨nd, de, cce, cge, ce, eg, cp, tb, ac, sh, tep, tic, ten,
    cch, cecs, cref, cecl, caux⟩))))))))))))))))))

/-- DPE parse loop over the first limit raw results (no anonymization and no
fields envelope on this dataset). -/
def parseDpeRecords (results : List Record) (limit : ℕ) : List DPEDiagnostic :=
  (results.take limit).filterMap parse_dpe_record

/-- FrenchGovDataFetcher.fetch_dpe_diagnostics, with the cache lookup and
network outcome passed explicitly, returning the cached record set and the
diagnostics returned to the caller. -/
def fetch_dpe_diagnostics (cached : Option (List Record))
    (outcome : FetchOutcome) (limit : ℕ) :
    Option (List Record) × List DPEDiagnostic :=
  match cached with
  | some results => (none, parseDpeRecords results limit)
  | none =>
    match outcome with
    | none => (none, [])
    | some none => (none, [])
    | some (some results) => (some results, parseDpeRecords results limit)

/-- Surface bucket of cross_reference_dvf_dpe: int(surface / 10) * 10. -/
def surfaceBucket (surface : ℚ) : ℤ := pyInt (surface / 10) * 10

/-- Lookup key of the DPE map. The source interpolates postal code and
bucket into the string postal_bucket; since the bucket text contains no
underscore, that string determines and is determined by this pair. -/
def dpeKey (code_postal : String) (surface : ℚ) : String × ℤ :=
  (code_postal, surfaceBucket surface)

/-- The dpe_map dict: association list from key to the diagnostics appended
under that key, in insertion order. -/
def DpeMap : Type := List ((String × ℤ) × List DPEDiagnostic)

/-- One step of dpe_map construction: append d under key k, creating the
entry when absent. -/
def addToMap : DpeMap → (String × ℤ) → DPEDiagnostic → DpeMap
  | [], k, d => [(k, [d])]
  | (k0, ds) :: rest, k, d =>
    if k0 = k then (k0, ds ++ [d]) :: rest else (k0, ds) :: addToMap rest k d

/-- dpe_map construction loop of cross_reference_dvf_dpe. -/
def buildDpeMap (diagnostics : List DPEDiagnostic) : DpeMap :=
  diagnostics.foldl (fun m d => addToMap m (dpeKey d.code_postal d.surface_habitable) d) []

/-- dpe_map.get(key, []). -/
def mapGet (m : DpeMap) (k : String × ℤ) : List DPEDiagnostic :=
  match m.find? (fun p => p.1 = k) with
  | some p => p.2
  | none => []

/-- Python max(list, key=lambda d: d.date_etablissement_dpe) on a nonempty
list given as head and tail: keeps the current maximum, replacing it only on
a strictly greater date, so the first of equal maxima wins. -/
def pyMaxByDate (d : DPEDiagnostic) (ds : List DPEDiagnostic) : DPEDiagnostic :=
  ds.foldl (fun acc x =>
    if acc.date_etablissement_dpe < x.date_etablissement_dpe then x else acc) d

/-- One enriched entry of the cross-reference result. -/
structure EnrichedEntry where
  transaction : DVFTransaction
  dpe : Option DPEDiagnostic
  confidence : String
deriving DecidableEq, Repr

/-- Loop body of cross_reference_dvf_dpe for one transaction: a falsy
surface_reelle_bati (absent or zero) is skipped by continue; otherwise the
bucket is looked up, a nonempty match list yields the most recent diagnostic
with confidence medium, an empty one a null diagnostic with confidence
none. -/
def processTxn (m : DpeMap) (txn : DVFTransaction) : Option EnrichedEntry :=
  match txn.surface_reelle_bati with
  | none => none
  | some s =>
    if s = 0 then none
    else
      match mapGet m (dpeKey txn.code_postal s) with
      | [] => some ⟨txn, none, "none"⟩
      | d :: ds => some ⟨txn, some (pyMaxByDate d ds), "medium"⟩

/-- FrenchGovDataFetcher.cross_reference_dvf_dpe, on the already fetched
transaction and diagnostic lists (the two fetches are modelled separately). -/
def cross_reference_dvf_dpe (transactions : List DVFTransaction)
    (diagnostics : List DPEDiagnostic) : List EnrichedEntry :=
  transactions.filterMap (processTxn (buildDpeMap diagnostics))

/-! Concrete fixtures used by the theorems below. -/

/-- Default GDPR configuration of the fetcher (postal_code level, exact
addresses excluded). -/
def cfgDefault : GDPRConfig := ⟨"postal_code", false, 90⟩

/-- A raw DVF fields dict carrying a street-level address. -/
def fieldsEx : Record := fun k =>
  if k = "id_mutation" then some (PyVal.vStr "2024-1")
  else if k = "date_mutation" then some (PyVal.vStr "2025-06-01")
  else if k = "nature_mutation" then some (PyVal.vStr "Vente")
  else if k = "valeur_fonciere" then some (PyVal.vNum 250000)
  else if k = "adresse_numero" then some (PyVal.vStr "12")
  else if k = "adresse_nom_voie" then some (PyVal.vStr "Rue Victor Hugo")
  else if k = "code_postal" then some (PyVal.vStr "75015")
  else if k = "code_commune" then some (PyVal.vStr "75115")
  else if k = "nom_commune" then some (PyVal.vStr "Paris")
  else if k = "type_local" then some (PyVal.vStr "Appartement")
  else if k = "surface_reelle_bati" then some (PyVal.vNum 64)
  else none

/-- The same raw fields dict with different street-level values only. -/
def fieldsEx2 : Record := fun k =>
  if k = "adresse_numero" then some (PyVal.vStr "99")
  else if k = "adresse_nom_voie" then some (PyVal.vStr "Boulevard Haussmann")
  else fieldsEx k

/-- A raw DVF record wrapping fieldsEx under the fields envelope. -/
def recEx : Record := fun k =>
  if k = "fields" then some (PyVal.vDict fieldsEx) else none

/-- The transaction parsed from recEx under the default configuration. -/
def tEx : DVFTransaction :=
  ⟨"2024-1", "2025-06-01", "Vente", 250000, none, none, "75015", "75115",
    "Paris", "Appartement", some 64, none, none, none⟩

/-- A transaction with no built surface. -/
def txnNoSurface : DVFTransaction :=
  ⟨"m1", "2025-01-01", "Vente", 100000, none, none, "75015", "75115",
    "Paris", "Appartement", none, none, none, none⟩

/-- A transaction with surface 64 in postal code 75015. -/
def txnS : DVFTransaction :=
  ⟨"m2", "2025-02-01", "Vente", 320000, none, none, "75015", "75115",
    "Paris", "Appartement", some 64, none, none, none⟩

/-- A diagnostic with surface 68 in postal code 75015 (bucket 60). -/
def dpe68 : DPEDiagnostic :=
  ⟨"d68", "2025-03-01", "D", "D", 200, 30, "75015", "appartement", none, 68,
    "gaz", none, none, none, none, none, none, none⟩

/-- A diagnostic with surface 71 in postal code 75015 (bucket 70). -/
def dpe71 : DPEDiagnostic :=
  ⟨"d71", "2025-04-01", "E", "E", 260, 40, "75015", "appartement", none, 71,
    "gaz", none, none, none, none, none, none, none⟩

/-! Properties of the energy classification (claim C1). -/

/-- Membership of a value in the threshold interval of a class. -/
def InInterval (v : ℚ) (c : DPEClassification) : Prop :=
  inRange v (DPE_THRESHOLDS c).1 (DPE_THRESHOLDS c).2 = true

instance (v : ℚ) (c : DPEClassification) : Decidable (InInterval v c) := by
  unfold InInterval; infer_instance

/-- A value lying in the threshold interval of some class. -/
def Covered (v : ℚ) : Prop := ∃ c, InInterval v c

lemma inInterval_some_iff (v : ℚ) (c : DPEClassification) (q : ℚ)
    (hq : (DPE_THRESHOLDS c).2 = some q) :
    InInterval v c ↔ (DPE_THRESHOLDS c).1 ≤ v ∧ v ≤ q := by
  unfold InInterval inRange
  rw [hq]
  simp

lemma inInterval_lo_le {v : ℚ} {c : DPEClassification} (h : InInterval v c) :
    (DPE_THRESHOLDS c).1 ≤ v := by
  unfold InInterval inRange at h
  cases hq : (DPE_THRESHOLDS c).2 with
  | none => rw [hq] at h; simpa using h
  | some q => rw [hq] at h; simp at h; exact h.1

lemma inInterval_le_hi {v : ℚ} {c : DPEClassification} {q : ℚ}
    (h : InInterval v c) (hq : (DPE_THRESHOLDS c).2 = some q) : v ≤ q :=
  ((inInterval_some_iff v c q hq).mp h).2

/-- Between two classes in rank order there is a gap: the upper bound of the
lower class is finite and strictly below the lower bound of the higher one. -/
lemma threshold_gap : ∀ c1 c2 : DPEClassification, rank c1 < rank c2 →
    ∃ q, (DPE_THRESHOLDS c1).2 = some q ∧ q < (DPE_THRESHOLDS c2).1 := by
  intro c1 c2
  cases c1 <;> cases c2 <;> simp [rank, DPE_THRESHOLDS] <;> norm_num

lemma rank_injective : ∀ c1 c2 : DPEClassification, rank c1 = rank c2 → c1 = c2 := by
  decide

/-- The threshold intervals are pairwise disjoint. -/
lemma inInterval_unique {v : ℚ} {c1 c2 : DPEClassification}
    (h1 : InInterval v c1) (h2 : InInterval v c2) : c1 = c2 := by
  rcases Nat.lt_trichotomy (rank c1) (rank c2) with hlt | heq | hgt
  · exfalso
    obtain ⟨q, hq, hg⟩ := threshold_gap c1 c2 hlt
    have hvq : v ≤ q := inInterval_le_hi h1 hq
    have hlo : (DPE_THRESHOLDS c2).1 ≤ v := inInterval_lo_le h2
    linarith
  · exact rank_injective c1 c2 heq
  · exfalso
    obtain ⟨q, hq, hg⟩ := threshold_gap c2 c1 hgt
    have hvq : v ≤ q := inInterval_le_hi h2 hq
    have hlo : (DPE_THRESHOLDS c1).1 ≤ v := inInterval_lo_le h1
    linarith

lemma mem_class_order (c : DPEClassification) : c ∈ DPE_CLASS_ORDER := by
  cases c <;> simp [DPE_CLASS_ORDER]

/-- Coverage as a decidable search over the class order list. -/
lemma covered_iff_bex (v : ℚ) : Covered v ↔ ∃ c ∈ DPE_CLASS_ORDER, InInterval v c := by
  constructor
  · rintro ⟨c, hc⟩
    exact ⟨c, mem_class_order c, hc⟩
  · rintro ⟨c, _, hc⟩
    exact ⟨c, hc⟩

/-- On a covered value, the classification lands in an interval containing
the value. -/
lemma classify_inInterval_of_covered {v : ℚ} (h : Covered v) :
    InInterval v (classify_energy_performance v) := by
  obtain ⟨c, hc⟩ := h
  unfold classify_energy_performance
  cases hf : DPE_CLASS_ORDER.find?
      (fun c => inRange v (DPE_THRESHOLDS c).1 (DPE_THRESHOLDS c).2) with
  | none =>
    exact absurd hc (List.find?_eq_none.mp hf c (mem_class_order c))
  | some c0 =>
    have h0 := List.find?_some hf
    exact h0

/-- On a covered value, the classification is the unique containing class. -/
lemma classify_eq_of_inInterval {v : ℚ} {c : DPEClassification}
    (hc : InInterval v c) : classify_energy_performance v = c :=
  inInterval_unique (classify_inInterval_of_covered ⟨c, hc⟩) hc

/-- On an uncovered value, classification falls back to G. -/
lemma classify_eq_G_of_not_covered {v : ℚ} (h : ¬ Covered v) :
    classify_energy_performance v = G := by
  unfold classify_energy_performance
  cases hf : DPE_CLASS_ORDER.find?
      (fun c => inRange v (DPE_THRESHOLDS c).1 (DPE_THRESHOLDS c).2) with
  | none => rfl
  | some c0 =>
    have h0 := List.find?_some hf
    exact absurd ⟨c0, h0⟩ h

/-- Every natural number value is covered by some threshold interval. -/
lemma nat_covered (n : ℕ) : Covered (n : ℚ) := by
  rcases le_or_lt n 70 with h70 | h70
  · refine ⟨A, (inInterval_some_iff (n : ℚ) A 70 rfl).mpr ⟨?_, ?_⟩⟩
    · show (0 : ℚ) ≤ (n : ℚ)
      positivity
    · exact_mod_cast h70
  rcases le_or_lt n 110 with h110 | h110
  · refine ⟨B, (inInterval_some_iff (n : ℚ) B 110 rfl).mpr ⟨?_, ?_⟩⟩
    · show (71 : ℚ) ≤ (n : ℚ)
      exact_mod_cast h70
    · exact_mod_cast h110
  rcases le_or_lt n 180 with h180 | h180
  · refine ⟨C, (inInterval_some_iff (n : ℚ) C 180 rfl).mpr ⟨?_, ?_⟩⟩
    · show (111 : ℚ) ≤ (n : ℚ)
      exact_mod_cast h110
    · exact_mod_cast h180
  rcases le_or_lt n 250 with h250 | h250
  · refine ⟨D, (inInterval_some_iff (n : ℚ) D 250 rfl).mpr ⟨?_, ?_⟩⟩
    · show (181 : ℚ) ≤ (n : ℚ)
      exact_mod_cast h180
    · exact_mod_cast h250
  rcases le_or_lt n 330 with h330 | h330
  · refine ⟨E, (inInterval_some_iff (n : ℚ) E 330 rfl).mpr ⟨?_, ?_⟩⟩
    · show (251 : ℚ) ≤ (n : ℚ)
      exact_mod_cast h250
    · exact_mod_cast h330
  rcases le_or_lt n 420 with h420 | h420
  · refine ⟨F, (inInterval_some_iff (n : ℚ) F 420 rfl).mpr ⟨?_, ?_⟩⟩
    · show (331 : ℚ) ≤ (n : ℚ)
      exact_mod_cast h330
    · exact_mod_cast h420
  · refine ⟨G, ?_⟩
    unfold InInterval inRange DPE_THRESHOLDS
    simp only [decide_eq_true_eq, Bool.and_eq_true]
    constructor
    · show 421 ≤ (n : ℚ)
      exact_mod_cast h420
    · trivial

/-- Claim C1, as stated, is false: the thresholds do not partition the
non-negative line (70.5 lies in no interval and falls back to G), and the
mapping is not monotonic (70.5 is classified G while the larger value 100 is
classified B, a strictly better class). -/
theorem classify_partition_counterexample :
    ¬ Covered (141/2 : ℚ) ∧
    classify_energy_performance (141/2) = DPEClassification.G ∧
    ((141/2 : ℚ) ≤ 100) ∧
    classify_energy_performance 100 = DPEClassification.B ∧
    rank (classify_energy_performance 100) <
      rank (classify_energy_performance (141/2)) := by
  have hnc : ¬ Covered (141/2 : ℚ) := by
    rintro ⟨c, hc⟩
    cases c
    · exact absurd (inInterval_le_hi hc rfl) (by norm_num)
    all_goals exact absurd (inInterval_lo_le hc) (by norm_num [DPE_THRESHOLDS])
  have h100 : classify_energy_performance 100 = DPEClassification.B :=
    classify_eq_of_inInterval ((inInterval_some_iff 100 DPEClassification.B 110 rfl).mpr
      (by norm_num [DPE_THRESHOLDS]))
  refine ⟨hnc, classify_eq_G_of_not_covered hnc, by norm_num, h100, ?_⟩
  rw [h100, classify_eq_G_of_not_covered hnc]
  decide

/-- Claim C1 (amended): classify_energy_performance always returns one of
the 7 classes; the threshold intervals are pairwise disjoint and cover every
natural number, but leave sub-unit gaps between consecutive classes, on
which classification falls back to G; on covered values (in particular all
integer energy values) the classification is the unique containing interval
and is monotonic: a higher covered value never gets a strictly better
class. -/
theorem classify_partition_monotone_amended :
    (∀ (v : ℚ) (c1 c2 : DPEClassification),
        InInterval v c1 → InInterval v c2 → c1 = c2) ∧
    (∀ n : ℕ, Covered (n : ℚ)) ∧
    (∀ v : ℚ, (Covered v → InInterval v (classify_energy_performance v)) ∧
      (¬ Covered v → classify_energy_performance v = DPEClassification.G)) ∧
    (∀ v1 v2 : ℚ, Covered v1 → Covered v2 → v1 ≤ v2 →
      rank (classify_energy_performance v1) ≤ rank (classify_energy_performance v2)) := by
  refine ⟨fun v c1 c2 h1 h2 => inInterval_unique h1 h2, nat_covered,
    fun v => ⟨classify_inInterval_of_covered, classify_eq_G_of_not_covered⟩,
    fun v1 v2 h1 h2 hle => ?_⟩
  obtain ⟨c1, hc1⟩ := h1
  obtain ⟨c2, hc2⟩ := h2
  rw [classify_eq_of_inInterval hc1, classify_eq_of_inInterval hc2]
  by_contra hlt
  push_neg at hlt
  obtain ⟨q, hq, hg⟩ := threshold_gap c2 c1 hlt
  have hvq : v2 ≤ q := inInterval_le_hi hc2 hq
  have hlo : (DPE_THRESHOLDS c1).1 ≤ v1 := inInterval_lo_le hc1
  linarith

/-- Concrete instantiation of the amended claim C1: 100 lies only in the B
interval, 100 and 300 are covered, and classification is monotone between
them. -/
theorem classify_partition_monotone_amended_witness :
    DPEClassification.B = DPEClassification.B ∧
    Covered ((100 : ℕ) : ℚ) ∧
    InInterval (300 : ℚ) (classify_energy_performance 300) ∧
    rank (classify_energy_performance 100) ≤ rank (classify_energy_performance 300) := by
  have hB : InInterval (100 : ℚ) DPEClassification.B :=
    (inInterval_some_iff 100 DPEClassification.B 110 rfl).mpr (by norm_num [DPE_THRESHOLDS])
  have hE : InInterval (300 : ℚ) DPEClassification.E :=
    (inInterval_some_iff 300 DPEClassification.E 330 rfl).mpr (by norm_num [DPE_THRESHOLDS])
  exact ⟨classify_partition_monotone_amended.1 100 DPEClassification.B DPEClassification.B hB hB,
    classify_partition_monotone_amended.2.1 100,
    (classify_partition_monotone_amended.2.2.1 300).1 ⟨DPEClassification.E, hE⟩,
    classify_partition_monotone_amended.2.2.2 100 300 ⟨DPEClassification.B, hB⟩
      ⟨DPEClassification.E, hE⟩ (by norm_num)⟩

/-! Properties of the full recalculation (claims C2, C5, C6). -/

lemma calc_full_recalc_eq (transp : Bool) (oc : DPEClassification) (ope : ℚ)
    (cons : EnergyConsumption) (ep : ℚ) (others : List (String × ℚ))
    (surface : ℚ) (rental : Bool) :
    (calculate_full_dpe_2026 transp oc ope cons ep others surface rental).recalculated_primary_energy
      = recalculate_with_2026_factor cons ep others := rfl

lemma calc_full_class_eq (transp : Bool) (oc : DPEClassification) (ope : ℚ)
    (cons : EnergyConsumption) (ep : ℚ) (others : List (String × ℚ))
    (surface : ℚ) (rental : Bool) :
    (calculate_full_dpe_2026 transp oc ope cons ep others surface rental).recalculated_classification
      = classify_energy_performance (recalculate_with_2026_factor cons ep others) := rfl

lemma calc_full_passoire_eq (transp : Bool) (oc : DPEClassification) (ope : ℚ)
    (cons : EnergyConsumption) (ep : ℚ) (others : List (String × ℚ))
    (surface : ℚ) (rental : Bool) :
    (calculate_full_dpe_2026 transp oc ope cons ep others surface rental).is_passoire_thermique
      = decide (classify_energy_performance (recalculate_with_2026_factor cons ep others) = F ∨
          classify_energy_performance (recalculate_with_2026_factor cons ep others) = G) := rfl

lemma calc_full_urgency_eq (transp : Bool) (oc : DPEClassification) (ope : ℚ)
    (cons : EnergyConsumption) (ep : ℚ) (others : List (String × ℚ))
    (surface : ℚ) (rental : Bool) :
    (calculate_full_dpe_2026 transp oc ope cons ep others surface rental).renovation_urgency
      = calculate_renovation_urgency
          (classify_energy_performance (recalculate_with_2026_factor cons ep others)) rental := rfl

lemma calc_full_ban_eq (transp : Bool) (oc : DPEClassification) (ope : ℚ)
    (cons : EnergyConsumption) (ep : ℚ) (others : List (String × ℚ))
    (surface : ℚ) (rental : Bool) :
    (calculate_full_dpe_2026 transp oc ope cons ep others surface rental).rental_ban_date
      = (if rental = true then
          (RENTAL_BAN_DATES.find? (fun p =>
            p.1 = classify_energy_performance (recalculate_with_2026_factor cons ep others))).map
            (fun p => p.2)
        else none) := rfl

lemma calc_full_cost_range_eq (transp : Bool) (oc : DPEClassification) (ope : ℚ)
    (cons : EnergyConsumption) (ep : ℚ) (others : List (String × ℚ))
    (surface : ℚ) (rental : Bool) :
    (calculate_full_dpe_2026 transp oc ope cons ep others surface rental).estimated_renovation_cost_range
      = estimate_renovation_costs
          (classify_energy_performance (recalculate_with_2026_factor cons ep others)) surface := rfl

/-- Claim C2, as stated, is false: on an invalid input (electricity share 2,
outside the unit interval, and surface -5, non-positive) the engine raises
no error and returns a full RecalculationResult, computed with the raw share
(270 times 2 times 1.9 equals 1026; a share clamped into the unit interval
could yield at most 513). -/
theorem calculate_full_no_validation_counterexample :
    (1 : ℚ) < 2 ∧ (-5 : ℚ) < 0 ∧
    (calculate_full_dpe_2026 true DPEClassification.A 100
        ⟨200, 40, 5, 10, 15⟩ 2 [] (-5) true).recalculated_primary_energy = 1026 ∧
    (calculate_full_dpe_2026 true DPEClassification.A 100
        ⟨200, 40, 5, 10, 15⟩ 2 [] (-5) true).recalculated_classification = DPEClassification.G := by
  have hrec : recalculate_with_2026_factor ⟨200, 40, 5, 10, 15⟩ 2 [] = 1026 := by
    norm_num [recalculate_with_2026_factor, weightedFactor,
      EnergyConsumption.total_final_energy, ELECTRICITY_FACTOR_2026]
  have hG : InInterval (1026 : ℚ) G := by
    unfold InInterval inRange DPE_THRESHOLDS
    norm_num
  refine ⟨by norm_num, by norm_num, ?_, ?_⟩
  · rw [calc_full_recalc_eq]
    exact hrec
  · rw [calc_full_class_eq, hrec]
    exact classify_eq_of_inInterval hG

/-- Claim C2 (amended): the Regulatory Recalculation Engine performs no
input validation at all: every call, also with an energy-source share
outside the unit interval or a non-positive surface, computes and returns a
RecalculationResult, and the offending values are used exactly as given
(never clamped): the recalculated primary energy always uses the raw
electricity share and the renovation cost range the raw surface. The
request-level bounds live only in the HTTP layer outside the engine. -/
theorem calculate_full_no_validation_amended (transp : Bool)
    (oc : DPEClassification) (ope : ℚ) (cons : EnergyConsumption) (ep : ℚ)
    (others : List (String × ℚ)) (surface : ℚ) (rental : Bool) :
    (calculate_full_dpe_2026 transp oc ope cons ep others surface rental).recalculated_primary_energy
      = cons.total_final_energy * weightedFactor ep others ∧
    (calculate_full_dpe_2026 transp oc ope cons ep others surface rental).estimated_renovation_cost_range
      = estimate_renovation_costs
          (classify_energy_performance (recalculate_with_2026_factor cons ep others)) surface :=
  ⟨rfl, rfl⟩

/-- Claim C5, as stated, is false in one number: on the given scenario the
engine computes 270 times 1.855 = 500.85 kWh of recalculated primary
energy, not the claimed 501.85. -/
theorem scenario_2026_counterexample :
    recalculate_with_2026_factor ⟨200, 40, 5, 10, 15⟩ 0.95 [("gas", 0.05)] = 500.85 ∧
    (500.85 : ℚ) ≠ 501.85 := by
  constructor
  · norm_num [recalculate_with_2026_factor, weightedFactor,
      EnergyConsumption.total_final_energy, ELECTRICITY_FACTOR_2026, GAS_FACTOR]
  · norm_num

/-- Claim C5 (amended): for consumption (200, 40, 5, 10, 15), total 270, and
mix electricity 0.95 and gas 0.05, the weighted factor is 1.855, the
recalculated primary energy 500.85, the class G with
is_passoire_thermique true, and for a rental the urgency is critical and the
rental-ban date 2025-01-01. -/
theorem scenario_2026_amended :
    EnergyConsumption.total_final_energy ⟨200, 40, 5, 10, 15⟩ = 270 ∧
    weightedFactor 0.95 [("gas", 0.05)] = 1.855 ∧
    recalculate_with_2026_factor ⟨200, 40, 5, 10, 15⟩ 0.95 [("gas", 0.05)] = 500.85 ∧
    classify_energy_performance 500.85 = DPEClassification.G ∧
    (calculate_full_dpe_2026 true DPEClassification.F 621
        ⟨200, 40, 5, 10, 15⟩ 0.95 [("gas", 0.05)] 65 true).is_passoire_thermique = true ∧
    (calculate_full_dpe_2026 true DPEClassification.F 621
        ⟨200, 40, 5, 10, 15⟩ 0.95 [("gas", 0.05)] 65 true).renovation_urgency
      = RenovationUrgency.critical ∧
    (calculate_full_dpe_2026 true DPEClassification.F 621
        ⟨200, 40, 5, 10, 15⟩ 0.95 [("gas", 0.05)] 65 true).rental_ban_date
      = some ⟨2025, 1, 1⟩ := by
  have hrec : recalculate_with_2026_factor ⟨200, 40, 5, 10, 15⟩ 0.95 [("gas", 0.05)] = 500.85 := by
    norm_num [recalculate_with_2026_factor, weightedFactor,
      EnergyConsumption.total_final_energy, ELECTRICITY_FACTOR_2026, GAS_FACTOR]
  have hG : classify_energy_performance 500.85 = DPEClassification.G := by
    refine classify_eq_of_inInterval ?_
    unfold InInterval inRange DPE_THRESHOLDS
    norm_num
  refine ⟨by norm_num [EnergyConsumption.total_final_energy], ?_, hrec, hG, ?_, ?_, ?_⟩
  · norm_num [weightedFactor, ELECTRICITY_FACTOR_2026, GAS_FACTOR]
  · rw [calc_full_passoire_eq, hrec, hG]
    decide
  · rw [calc_full_urgency_eq, hrec, hG]
    rfl
  · rw [calc_full_ban_eq, hrec, hG]
    rfl

/-- Claim C6: the rental-ban date is non-null exactly when the property is a
rental and its recalculated class is E, F or G; G yields 2025-01-01, F
2028-01-01, E 2034-01-01, every other combination null, and the three dates
are strictly increasing for the classes in order G, F, E. -/
theorem rental_ban_date_spec (transp : Bool) (oc : DPEClassification) (ope : ℚ)
    (cons : EnergyConsumption) (ep : ℚ) (others : List (String × ℚ))
    (surface : ℚ) (rental : Bool) :
    (calculate_full_dpe_2026 transp oc ope cons ep others surface rental).rental_ban_date
      = (if rental = true then
          (match (calculate_full_dpe_2026 transp oc ope cons ep others surface
              rental).recalculated_classification with
            | DPEClassification.G => some ⟨2025, 1, 1⟩
            | DPEClassification.F => some ⟨2028, 1, 1⟩
            | DPEClassification.E => some ⟨2034, 1, 1⟩
            | _ => none)
        else none) ∧
    PyDate.lt ⟨2025, 1, 1⟩ ⟨2028, 1, 1⟩ ∧ PyDate.lt ⟨2028, 1, 1⟩ ⟨2034, 1, 1⟩ := by
  refine ⟨?_, by decide, by decide⟩
  rw [calc_full_ban_eq, calc_full_class_eq]
  cases rental
  · rfl
  · cases hc : classify_energy_performance (recalculate_with_2026_factor cons ep others) <;>
      rfl

/-- Concrete instantiation of claim C6 at the scenario of the repository
example (class G rental): the ban date is 2025-01-01 and the dates increase
strictly. -/
theorem rental_ban_date_spec_witness :
    (calculate_full_dpe_2026 true DPEClassification.F 621
        ⟨200, 40, 5, 10, 15⟩ 0.95 [("gas", 0.05)] 65 true).rental_ban_date
      = (if true = true then
          (match (calculate_full_dpe_2026 true DPEClassification.F 621
              ⟨200, 40, 5, 10, 15⟩ 0.95 [("gas", 0.05)] 65 true).recalculated_classification with
            | DPEClassification.G => some ⟨2025, 1, 1⟩
            | DPEClassification.F => some ⟨2028, 1, 1⟩
            | DPEClassification.E => some ⟨2034, 1, 1⟩
            | _ => none)
        else none) ∧
    PyDate.lt ⟨2025, 1, 1⟩ ⟨2028, 1, 1⟩ ∧ PyDate.lt ⟨2028, 1, 1⟩ ⟨2034, 1, 1⟩ :=
  rental_ban_date_spec true DPEClassification.F 621 ⟨200, 40, 5, 10, 15⟩ 0.95
    [("gas", 0.05)] 65 true

/-! Properties of anonymization and the fetchers (claims C3, C8, C9, C10). -/

lemma anonymize_pop_numero (cfg : GDPRConfig) (r : Record)
    (h : cfg.include_exact_addresses = false) :
    anonymize_address cfg r "adresse_numero" = none := by
  unfold anonymize_address
  rw [h]
  by_cases hlev : cfg.anonymization_level = "commune" <;>
    simp [hlev, popField]

lemma anonymize_pop_voie (cfg : GDPRConfig) (r : Record)
    (h : cfg.include_exact_addresses = false) :
    anonymize_address cfg r "adresse_nom_voie" = none := by
  unfold anonymize_address
  rw [h]
  by_cases hlev : cfg.anonymization_level = "commune" <;>
    simp [hlev, popField]

lemma anonymize_coords_commune (cfg : GDPRConfig) (r : Record)
    (h : cfg.include_exact_addresses = false)
    (hlev : cfg.anonymization_level = "commune") :
    anonymize_address cfg r "longitude" = none ∧
    anonymize_address cfg r "latitude" = none := by
  unfold anonymize_address
  rw [h]
  simp [hlev, popField]

lemma anonymize_coords_keep (cfg : GDPRConfig) (r : Record)
    (h : cfg.include_exact_addresses = false)
    (hlev : cfg.anonymization_level ≠ "commune") :
    anonymize_address cfg r "longitude" = r "longitude" ∧
    anonymize_address cfg r "latitude" = r "latitude" := by
  unfold anonymize_address
  rw [h]
  simp [hlev, popField]

lemma anonymize_other (cfg : GDPRConfig) (r : Record) (k : String)
    (h : cfg.include_exact_addresses = false)
    (h1 : k ≠ "adresse_numero") (h2 : k ≠ "adresse_nom_voie")
    (h3 : k ≠ "longitude") (h4 : k ≠ "latitude") :
    anonymize_address cfg r k = r k := by
  unfold anonymize_address
  rw [h]
  by_cases hlev : cfg.anonymization_level = "commune" <;>
    simp [hlev, popField, h1, h2, h3, h4]

lemma anonymize_keep_all (cfg : GDPRConfig) (r : Record)
    (h : cfg.include_exact_addresses = true) :
    anonymize_address cfg r = r := by
  unfold anonymize_address
  rw [h]
  simp

lemma getOptStr_of_none {r : Record} {k : String} (h : r k = none) :
    getOptStr r k = some none := by
  unfold getOptStr
  rw [h]

/-- The parsed street-address fields of a transaction are exactly the
optional-string reads of the source record. -/
lemma parse_dvf_record_fields {r : Record} {t : DVFTransaction}
    (h : parse_dvf_record r = some t) :
    getOptStr r "adresse_numero" = some t.adresse_numero ∧
    getOptStr r "adresse_nom_voie" = some t.adresse_nom_voie := by
  obtain ⟨idm, h1, h⟩ := Option.bind_eq_some.mp h
  obtain ⟨dm, h2, h⟩ := Option.bind_eq_some.mp h
  obtain ⟨nm, h3, h⟩ := Option.bind_eq_some.mp h
  obtain ⟨vf, h4, h⟩ := Option.bind_eq_some.mp h
  obtain ⟨an, h5, h⟩ := Option.bind_eq_some.mp h
  obtain ⟨av, h6, h⟩ := Option.bind_eq_some.mp h
  obtain ⟨cp, h7, h⟩ := Option.bind_eq_some.mp h
  obtain ⟨cc, h8, h⟩ := Option.bind_eq_some.mp h
  obtain ⟨nc, h9, h⟩ := Option.bind_eq_some.mp h
  obtain ⟨tl, h10, h⟩ := Option.bind_eq_some.mp h
  obtain ⟨srb, h11, h⟩ := Option.bind_eq_some.mp h
  obtain ⟨npp, h12, h⟩ := Option.bind_eq_some.mp h
  obtain ⟨lon, h13, h⟩ := Option.bind_eq_some.mp h
  obtain ⟨lat, h14, h⟩ := Option.bind_eq_some.mp h
  have ht := Option.some.inj h
  subst ht
  exact ⟨h5, h6⟩

/-- Every transaction produced by the DVF parse loop under a configuration
excluding exact addresses carries no street-level fields. -/
lemma parseDvfRecords_addr_none (cfg : GDPRConfig) (records : List Record)
    (limit : ℕ) (hcfg : cfg.include_exact_addresses = false) :
    ∀ t ∈ parseDvfRecords cfg records limit,
      t.adresse_numero = none ∧ t.adresse_nom_voie = none := by
  intro t ht
  unfold parseDvfRecords at ht
  rw [List.mem_filterMap] at ht
  obtain ⟨rec, _, hp⟩ := ht
  rw [Option.bind_eq_some] at hp
  obtain ⟨fields, _, hp⟩ := hp
  obtain ⟨hn, hv⟩ := parse_dvf_record_fields hp
  rw [getOptStr_of_none (anonymize_pop_numero cfg fields hcfg)] at hn
  rw [getOptStr_of_none (anonymize_pop_voie cfg fields hcfg)] at hv
  exact ⟨(Option.some.injEq _ _).mp hn.symm, (Option.some.injEq _ _).mp hv.symm⟩

/-- Anonymization erases the difference between two records that agree
outside the street-level fields. -/
lemma anonymize_congr (cfg : GDPRConfig) (d d2 : Record)
    (hcfg : cfg.include_exact_addresses = false)
    (hagree : ∀ k, k ≠ "adresse_numero" → k ≠ "adresse_nom_voie" → d k = d2 k) :
    anonymize_address cfg d = anonymize_address cfg d2 := by
  funext k
  by_cases h1 : k = "adresse_numero"
  · subst h1
    rw [anonymize_pop_numero cfg d hcfg, anonymize_pop_numero cfg d2 hcfg]
  by_cases h2 : k = "adresse_nom_voie"
  · subst h2
    rw [anonymize_pop_voie cfg d hcfg, anonymize_pop_voie cfg d2 hcfg]
  by_cases h3 : k = "longitude"
  · subst h3
    by_cases hlev : cfg.anonymization_level = "commune"
    · rw [(anonymize_coords_commune cfg d hcfg hlev).1,
        (anonymize_coords_commune cfg d2 hcfg hlev).1]
    · rw [(anonymize_coords_keep cfg d hcfg hlev).1,
        (anonymize_coords_keep cfg d2 hcfg hlev).1]
      exact hagree "longitude" (by decide) (by decide)
  by_cases h4 : k = "latitude"
  · subst h4
    by_cases hlev : cfg.anonymization_level = "commune"
    · rw [(anonymize_coords_commune cfg d hcfg hlev).2,
        (anonymize_coords_commune cfg d2 hcfg hlev).2]
    · rw [(anonymize_coords_keep cfg d hcfg hlev).2,
        (anonymize_coords_keep cfg d2 hcfg hlev).2]
      exact hagree "latitude" (by decide) (by decide)
  · rw [anonymize_other cfg d k hcfg h1 h2 h3 h4,
      anonymize_other cfg d2 k hcfg h1 h2 h3 h4]
    exact hagree k h1 h2

/-- Claim C10: _anonymize_address with exact addresses excluded removes
exactly adresse_numero and adresse_nom_voie, removes longitude and latitude
if and only if the anonymization level is commune, and leaves every other
field unchanged; with exact addresses included the record is returned
entirely unchanged. -/
theorem anonymize_address_frame (cfg : GDPRConfig) (r : Record) :
    (cfg.include_exact_addresses = true → anonymize_address cfg r = r) ∧
    (cfg.include_exact_addresses = false →
      anonymize_address cfg r "adresse_numero" = none ∧
      anonymize_address cfg r "adresse_nom_voie" = none ∧
      (cfg.anonymization_level = "commune" →
        anonymize_address cfg r "longitude" = none ∧
        anonymize_address cfg r "latitude" = none) ∧
      (cfg.anonymization_level ≠ "commune" →
        anonymize_address cfg r "longitude" = r "longitude" ∧
        anonymize_address cfg r "latitude" = r "latitude") ∧
      (∀ k : String, k ≠ "adresse_numero" → k ≠ "adresse_nom_voie" →
        k ≠ "longitude" → k ≠ "latitude" → anonymize_address cfg r k = r k)) :=
  ⟨anonymize_keep_all cfg r,
   fun h => ⟨anonymize_pop_numero cfg r h, anonymize_pop_voie cfg r h,
     anonymize_coords_commune cfg r h, anonymize_coords_keep cfg r h,
     fun k h1 h2 h3 h4 => anonymize_other cfg r k h h1 h2 h3 h4⟩⟩

/-- Concrete instantiation of claim C10: under the default configuration the
example record loses its street number but keeps its postal code. -/
theorem anonymize_address_frame_witness :
    anonymize_address cfgDefault fieldsEx "adresse_numero" = none ∧
    anonymize_address cfgDefault fieldsEx "code_postal" = fieldsEx "code_postal" := by
  have h := anonymize_address_frame cfgDefault fieldsEx
  exact ⟨(h.2 rfl).1,
    (h.2 rfl).2.2.2.2 "code_postal" (by decide) (by decide) (by decide) (by decide)⟩

/-- Claim C8: when the upstream call ultimately fails, either because all
retry attempts failed (_fetch_with_retry returned None) or because the
parsed envelope lacks the expected field (records or results), both dataset
fetchers return the empty list, and write nothing to the cache, instead of
raising. -/
theorem fetchers_degrade_to_empty (cfg : GDPRConfig) (limit : ℕ) :
    fetch_dvf_transactions cfg none none limit = (none, []) ∧
    fetch_dvf_transactions cfg none (some none) limit = (none, []) ∧
    fetch_dpe_diagnostics none none limit = (none, []) ∧
    fetch_dpe_diagnostics none (some none) limit = (none, []) :=
  ⟨rfl, rfl, rfl, rfl⟩

/-- Claim C3, as stated, is false: on a cache miss the raw upstream record
set is serialized to the cache before anonymization runs, so with the
default configuration (exact addresses excluded) the cached record set
still contains the street-level fields of the example record. -/
theorem cache_stores_raw_counterexample :
    cfgDefault.include_exact_addresses = false ∧
    (fetch_dvf_transactions cfgDefault none (some (some [recEx])) 100).1 = some [recEx] ∧
    recEx "fields" = some (PyVal.vDict fieldsEx) ∧
    fieldsEx "adresse_numero" = some (PyVal.vStr "12") ∧
    fieldsEx "adresse_nom_voie" = some (PyVal.vStr "Rue Victor Hugo") :=
  ⟨rfl, rfl, rfl, rfl, rfl⟩

/-- Claim C3 (amended): anonymization happens exactly once per returned
record, at parse time, before caller exposure but after the cache write: on
a cache miss with a successful response the cache receives the raw upstream
record set verbatim, street-level fields included, while the transactions
returned to the caller are anonymized: with exact addresses excluded none of
them carries adresse_numero or adresse_nom_voie. -/
theorem anonymize_after_cache_amended (cfg : GDPRConfig)
    (records : List Record) (limit : ℕ)
    (hcfg : cfg.include_exact_addresses = false) :
    (fetch_dvf_transactions cfg none (some (some records)) limit).1 = some records ∧
    ∀ t ∈ (fetch_dvf_transactions cfg none (some (some records)) limit).2,
      t.adresse_numero = none ∧ t.adresse_nom_voie = none :=
  ⟨rfl, parseDvfRecords_addr_none cfg records limit hcfg⟩

/-- Concrete instantiation of the amended claim C3: the example fetch caches
the raw record and returns it with the street fields stripped. -/
theorem anonymize_after_cache_amended_witness :
    (fetch_dvf_transactions cfgDefault none (some (some [recEx])) 100).1 = some [recEx] ∧
    tEx.adresse_numero = none ∧ tEx.adresse_nom_voie = none := by
  have h := anonymize_after_cache_amended cfgDefault [recEx] 100 rfl
  have hout : (fetch_dvf_transactions cfgDefault none (some (some [recEx])) 100).2 = [tEx] := by
    decide
  have hmem : tEx ∈ (fetch_dvf_transactions cfgDefault none (some (some [recEx])) 100).2 := by
    rw [hout]
    exact List.mem_singleton.mpr rfl
  exact ⟨h.1, (h.2 tEx hmem).1, (h.2 tEx hmem).2⟩

/-- Claim C9: with exact addresses excluded, the transactions returned by
fetch_dvf_transactions never carry street-level fields, whatever the raw
records contained, and the parsed output is independent of the street-level
values: two raw fields dicts agreeing outside adresse_numero and
adresse_nom_voie parse to the same result. -/
theorem fetch_anonymization_noninterference (cfg : GDPRConfig)
    (hcfg : cfg.include_exact_addresses = false) :
    (∀ (cached : Option (List Record)) (outcome : FetchOutcome) (limit : ℕ)
        (t : DVFTransaction),
      t ∈ (fetch_dvf_transactions cfg cached outcome limit).2 →
      t.adresse_numero = none ∧ t.adresse_nom_voie = none) ∧
    (∀ d d2 : Record,
      (∀ k, k ≠ "adresse_numero" → k ≠ "adresse_nom_voie" → d k = d2 k) →
      parse_dvf_record (anonymize_address cfg d)
        = parse_dvf_record (anonymize_address cfg d2)) := by
  constructor
  · intro cached outcome limit t ht
    match cached, outcome with
    | some records, _ => exact parseDvfRecords_addr_none cfg records limit hcfg t ht
    | none, none => simp [fetch_dvf_transactions] at ht
    | none, some none => simp [fetch_dvf_transactions] at ht
    | none, some (some records) => exact parseDvfRecords_addr_none cfg records limit hcfg t ht
  · intro d d2 hagree
    rw [anonymize_congr cfg d d2 hcfg hagree]

/-- Concrete instantiation of claim C9: the example fetch yields an
address-free transaction, and changing only the street-level values of the
raw fields dict leaves the parsed transaction unchanged. -/
theorem fetch_anonymization_noninterference_witness :
    tEx.adresse_numero = none ∧ tEx.adresse_nom_voie = none ∧
    parse_dvf_record (anonymize_address cfgDefault fieldsEx)
      = parse_dvf_record (anonymize_address cfgDefault fieldsEx2) := by
  have h := fetch_anonymization_noninterference cfgDefault rfl
  have hout : (fetch_dvf_transactions cfgDefault none (some (some [recEx])) 100).2 = [tEx] := by
    decide
  have hmem : tEx ∈ (fetch_dvf_transactions cfgDefault none (some (some [recEx])) 100).2 := by
    rw [hout]
    exact List.mem_singleton.mpr rfl
  have hind := h.2 fieldsEx fieldsEx2 (by
    intro k h1 h2
    unfold fieldsEx2
    rw [if_neg h1, if_neg h2])
  exact ⟨(h.1 none (some (some [recEx])) 100 tEx hmem).1,
    (h.1 none (some (some [recEx])) 100 tEx hmem).2, hind⟩

/-! Properties of the cross-reference join (claims C4, C7). -/

lemma mapGet_nil (k : String × ℤ) : mapGet [] k = [] := rfl

lemma mapGet_cons (a : String × ℤ) (b : List DPEDiagnostic) (rest : DpeMap)
    (k : String × ℤ) :
    mapGet ((a, b) :: rest) k = if a = k then b else mapGet rest k := by
  unfold mapGet
  by_cases h : a = k
  · rw [List.find?_cons_of_pos _ (by simp [h]), if_pos h]
  · rw [List.find?_cons_of_neg _ (by simp [h]), if_neg h]

lemma mapGet_addToMap (m : DpeMap) (k0 k : String × ℤ) (d : DPEDiagnostic) :
    mapGet (addToMap m k0 d) k
      = if k0 = k then mapGet m k ++ [d] else mapGet m k := by
  induction m with
  | nil =>
    show mapGet [(k0, [d])] k = _
    rw [mapGet_cons]
    by_cases h : k0 = k
    · rw [if_pos h, if_pos h, mapGet_nil]
      rfl
    · rw [if_neg h, if_neg h]
  | cons p rest ih =>
    obtain ⟨a, b⟩ := p
    show mapGet (if a = k0 then (a, b ++ [d]) :: rest else (a, b) :: addToMap rest k0 d) k = _
    by_cases h1 : a = k0
    · rw [if_pos h1]
      subst h1
      rw [mapGet_cons, mapGet_cons]
      by_cases h2 : a = k <;> simp [h2]
    · rw [if_neg h1, mapGet_cons, mapGet_cons, ih]
      split_ifs with h2 h3
      · exact absurd (h2.trans h3.symm) h1
      all_goals rfl

lemma mapGet_foldl (diags : List DPEDiagnostic) (m : DpeMap) (k : String × ℤ) :
    mapGet (diags.foldl
        (fun m2 d => addToMap m2 (dpeKey d.code_postal d.surface_habitable) d) m) k
      = mapGet m k
          ++ diags.filter (fun d => dpeKey d.code_postal d.surface_habitable = k) := by
  induction diags generalizing m with
  | nil => simp
  | cons d rest ih =>
    rw [List.foldl_cons, ih, mapGet_addToMap, List.filter_cons]
    by_cases h : dpeKey d.code_postal d.surface_habitable = k
    · simp [h]
    · simp [h]

/-- The bucket map lookup is exactly the list of diagnostics sharing the
key, in input order. -/
lemma mapGet_buildDpeMap (diags : List DPEDiagnostic) (k : String × ℤ) :
    mapGet (buildDpeMap diags) k
      = diags.filter (fun d => dpeKey d.code_postal d.surface_habitable = k) := by
  unfold buildDpeMap
  rw [mapGet_foldl]
  rfl

lemma pyMaxByDate_nil (d : DPEDiagnostic) : pyMaxByDate d [] = d := rfl

lemma pyMaxByDate_cons (d x : DPEDiagnostic) (xs : List DPEDiagnostic) :
    pyMaxByDate d (x :: xs)
      = pyMaxByDate
          (if d.date_etablissement_dpe < x.date_etablissement_dpe then x else d) xs := rfl

/-- The selected diagnostic is one of the candidates. -/
lemma pyMaxByDate_mem (d : DPEDiagnostic) (ds : List DPEDiagnostic) :
    pyMaxByDate d ds ∈ d :: ds := by
  induction ds generalizing d with
  | nil => simp [pyMaxByDate_nil]
  | cons x xs ih =>
    rw [pyMaxByDate_cons]
    rcases List.mem_cons.mp
        (ih (if d.date_etablissement_dpe < x.date_etablissement_dpe then x else d)) with
      h1 | h1
    · rw [h1]
      by_cases hc : d.date_etablissement_dpe < x.date_etablissement_dpe
      · rw [if_pos hc]
        exact List.mem_cons_of_mem _ (List.mem_cons_self _ _)
      · rw [if_neg hc]
        exact List.mem_cons_self _ _
    · exact List.mem_cons_of_mem _ (List.mem_cons_of_mem _ h1)

/-- The selected diagnostic has the most recent issue date among the
candidates. -/
lemma pyMaxByDate_le (d : DPEDiagnostic) (ds : List DPEDiagnostic) :
    ∀ x ∈ d :: ds,
      x.date_etablissement_dpe ≤ (pyMaxByDate d ds).date_etablissement_dpe := by
  induction ds generalizing d with
  | nil =>
    intro x hx
    rcases List.mem_cons.mp hx with rfl | h
    · exact le_refl _
    · simp at h
  | cons y ys ih =>
    intro x hx
    rw [pyMaxByDate_cons]
    have hd : d.date_etablissement_dpe ≤
        (if d.date_etablissement_dpe < y.date_etablissement_dpe then y
          else d).date_etablissement_dpe := by
      by_cases hc : d.date_etablissement_dpe < y.date_etablissement_dpe
      · rw [if_pos hc]
        exact le_of_lt hc
      · rw [if_neg hc]
    have hy : y.date_etablissement_dpe ≤
        (if d.date_etablissement_dpe < y.date_etablissement_dpe then y
          else d).date_etablissement_dpe := by
      by_cases hc : d.date_etablissement_dpe < y.date_etablissement_dpe
      · rw [if_pos hc]
      · rw [if_neg hc]
        exact le_of_not_lt hc
    rcases List.mem_cons.mp hx with rfl | hx2
    · exact le_trans hd (ih _ _ (List.mem_cons_self _ _))
    rcases List.mem_cons.mp hx2 with rfl | hx3
    · exact le_trans hy (ih _ _ (List.mem_cons_self _ _))
    · exact ih _ x (List.mem_cons_of_mem _ hx3)

/-- Every entry produced by the loop body carries confidence medium or
none. -/
lemma processTxn_conf {m : DpeMap} {txn : DVFTransaction} {e : EnrichedEntry}
    (h : processTxn m txn = some e) :
    e.confidence = "medium" ∨ e.confidence = "none" := by
  unfold processTxn at h
  cases hs : txn.surface_reelle_bati with
  | none =>
    rw [hs] at h
    exact absurd h (by simp)
  | some s =>
    simp only [hs] at h
    by_cases h0 : s = 0
    · rw [if_pos h0] at h
      exact absurd h (by simp)
    · rw [if_neg h0] at h
      cases hm : mapGet m (dpeKey txn.code_postal s) with
      | nil =>
        rw [hm] at h
        cases Option.some.inj h
        right
        rfl
      | cons d2 ds =>
        rw [hm] at h
        cases Option.some.inj h
        left
        rfl

/-- Claim C4, as stated, is false: a fetched transaction without a built
surface does not appear in the reconcile output at all; the loop skips it
with continue instead of emitting a null-diagnostic entry. -/
theorem cross_reference_drops_counterexample :
    txnNoSurface.surface_reelle_bati = none ∧
    cross_reference_dvf_dpe [txnNoSurface] [] = [] :=
  ⟨rfl, rfl⟩

/-- Claim C4 (amended): transactions whose built surface is absent (or zero,
which Python treats as falsy) are silently dropped from the reconcile
output; every other transaction whose bucket key matches no diagnostic
appears as an entry with a null diagnostic and confidence none. -/
theorem cross_reference_unmatched_amended (txns : List DVFTransaction)
    (diags : List DPEDiagnostic) :
    cross_reference_dvf_dpe txns diags
      = txns.filterMap (processTxn (buildDpeMap diags)) ∧
    (∀ txn : DVFTransaction,
      txn.surface_reelle_bati = none ∨ txn.surface_reelle_bati = some 0 →
      processTxn (buildDpeMap diags) txn = none) ∧
    (∀ txn ∈ txns, ∀ s : ℚ, txn.surface_reelle_bati = some s → s ≠ 0 →
      diags.filter
        (fun d => dpeKey d.code_postal d.surface_habitable = dpeKey txn.code_postal s) = [] →
      EnrichedEntry.mk txn none "none" ∈ cross_reference_dvf_dpe txns diags) := by
  refine ⟨rfl, ?_, ?_⟩
  · intro txn h
    rcases h with h | h <;> simp [processTxn, h]
  · intro txn htxn s hs h0 hfilter
    unfold cross_reference_dvf_dpe
    rw [List.mem_filterMap]
    refine ⟨txn, htxn, ?_⟩
    simp [processTxn, hs, h0, mapGet_buildDpeMap, hfilter]

/-- Concrete instantiation of the amended claim C4: the no-surface
transaction is dropped and the unmatched surface-64 transaction comes back
with a null diagnostic and confidence none. -/
theorem cross_reference_unmatched_amended_witness :
    processTxn (buildDpeMap []) txnNoSurface = none ∧
    EnrichedEntry.mk txnS none "none" ∈ cross_reference_dvf_dpe [txnS] [] := by
  have h := cross_reference_unmatched_amended [txnS] []
  exact ⟨h.2.1 txnNoSurface (Or.inl rfl),
    h.2.2 txnS (List.mem_singleton.mpr rfl) 64 rfl (by norm_num) rfl⟩

/-- Claim C7: a transaction and a diagnostic match exactly when they share a
postal code and their surfaces fall in the same 10-unit bucket (64 and 68
bucket to 60, 71 to 70); when several diagnostics match, the selected one is
among them and carries the most recent issue date, with the entry marked
confidence medium; and no entry of the output ever carries confidence
high. -/
theorem cross_reference_bucket_match (txns : List DVFTransaction)
    (diags : List DPEDiagnostic) :
    surfaceBucket 64 = 60 ∧ surfaceBucket 68 = 60 ∧ surfaceBucket 71 = 70 ∧
    (∀ (d : DPEDiagnostic) (txn : DVFTransaction) (s : ℚ),
      d ∈ mapGet (buildDpeMap diags) (dpeKey txn.code_postal s) ↔
        d ∈ diags ∧ d.code_postal = txn.code_postal ∧
          surfaceBucket d.surface_habitable = surfaceBucket s) ∧
    (∀ (txn : DVFTransaction) (s : ℚ), txn.surface_reelle_bati = some s → s ≠ 0 →
      ∀ (d : DPEDiagnostic) (ds : List DPEDiagnostic),
        mapGet (buildDpeMap diags) (dpeKey txn.code_postal s) = d :: ds →
        processTxn (buildDpeMap diags) txn
          = some ⟨txn, some (pyMaxByDate d ds), "medium"⟩ ∧
        pyMaxByDate d ds ∈ d :: ds ∧
        ∀ x ∈ d :: ds,
          x.date_etablissement_dpe ≤ (pyMaxByDate d ds).date_etablissement_dpe) ∧
    (∀ e ∈ cross_reference_dvf_dpe txns diags,
      e.confidence = "medium" ∨ e.confidence = "none") := by
  have hb64 : surfaceBucket 64 = 60 := by
    have h6 : ⌊(64 : ℚ) / 10⌋ = 6 := by
      rw [Int.floor_eq_iff]
      constructor <;> norm_num
    unfold surfaceBucket pyInt
    rw [if_pos (by norm_num), h6]
    norm_num
  have hb68 : surfaceBucket 68 = 60 := by
    have h6 : ⌊(68 : ℚ) / 10⌋ = 6 := by
      rw [Int.floor_eq_iff]
      constructor <;> norm_num
    unfold surfaceBucket pyInt
    rw [if_pos (by norm_num), h6]
    norm_num
  have hb71 : surfaceBucket 71 = 70 := by
    have h7 : ⌊(71 : ℚ) / 10⌋ = 7 := by
      rw [Int.floor_eq_iff]
      constructor <;> norm_num
    unfold surfaceBucket pyInt
    rw [if_pos (by norm_num), h7]
    norm_num
  refine ⟨hb64, hb68, hb71, ?_, ?_, ?_⟩
  · intro d txn s
    rw [mapGet_buildDpeMap, List.mem_filter]
    unfold dpeKey
    simp [Prod.ext_iff]
  · intro txn s hs h0 d ds hmap
    refine ⟨?_, pyMaxByDate_mem d ds, pyMaxByDate_le d ds⟩
    simp [processTxn, hs, h0, hmap]
  · intro e he
    unfold cross_reference_dvf_dpe at he
    rw [List.mem_filterMap] at he
    obtain ⟨txn, _, hp⟩ := he
    exact processTxn_conf hp

/-- Concrete instantiation of claim C7: with postal code 75015 throughout,
the surface-68 diagnostic matches the surface-64 transaction (bucket 60 on
both sides), the surface-71 diagnostic does not (bucket 70), and the entry
built for the transaction selects the surface-68 diagnostic with confidence
medium. -/
theorem cross_reference_bucket_match_witness :
    surfaceBucket 64 = 60 ∧
    dpe68 ∈ mapGet (buildDpeMap [dpe68, dpe71]) (dpeKey txnS.code_postal 64) ∧
    dpe71 ∉ mapGet (buildDpeMap [dpe68, dpe71]) (dpeKey txnS.code_postal 64) ∧
    processTxn (buildDpeMap [dpe68, dpe71]) txnS
      = some ⟨txnS, some (pyMaxByDate dpe68 []), "medium"⟩ := by
  have h := cross_reference_bucket_match [txnS] [dpe68, dpe71]
  have hmem : dpe68 ∈ mapGet (buildDpeMap [dpe68, dpe71]) (dpeKey txnS.code_postal 64) :=
    (h.2.2.2.1 dpe68 txnS 64).mpr
      ⟨by simp, rfl, h.2.1.trans h.1.symm⟩
  have hnot : dpe71 ∉ mapGet (buildDpeMap [dpe68, dpe71]) (dpeKey txnS.code_postal 64) := by
    intro hmem71
    have h3 := ((h.2.2.2.1 dpe71 txnS 64).mp hmem71).2.2
    have h4 : surfaceBucket dpe71.surface_habitable = 70 := h.2.2.1
    rw [h4, h.1] at h3
    exact absurd h3 (by decide)
  have hmap : mapGet (buildDpeMap [dpe68, dpe71]) (dpeKey txnS.code_postal 64) = [dpe68] := by
    rw [mapGet_buildDpeMap]
    simp [dpeKey, List.filter, dpe68, dpe71, txnS, Prod.ext_iff, h.1, h.2.1, h.2.2.1]
  exact ⟨h.1, hmem, hnot,
    (h.2.2.2.2.1 txnS 64 rfl (by norm_num) dpe68 [] hmap).1⟩

end EcoImmo
